import Mathlib

/-!
# parquet-generator: `generate_parquet.go`

A shallow embedding of the fixture generator.  The program builds three
in-memory Arrow records from literal data and writes each to a Parquet file
through `writeParquetFile`.  The embedding has three layers:

* the Arrow data model and the record builder, as far as the recipes use them;
* the three recipes (schema literal, builder fills, target filename);
* the control flow of `writeParquetFile` and `main` as an event trace, with the
  outcomes of the external calls (`os.Create`, `pqarrow.NewFileWriter`,
  `writer.Write`, `writer.Close`, `file.Close`) supplied by an environment.
-/

namespace ParquetGenerator

/-! ## Arrow data model -/

/-- The Arrow data types the program uses (`arrow.PrimitiveTypes.*`,
`arrow.BinaryTypes.String`, `arrow.FixedWidthTypes.Boolean`). -/
inductive DataType where
  | int32
  | int64
  | float32
  | float64
  | string
  | boolean
  deriving DecidableEq, Repr

/-- One `arrow.Field` literal: a column name and its type. -/
structure Field where
  name : String
  type : DataType
  deriving DecidableEq, Repr

/-- The schema is the ordered field list given to `arrow.NewSchema(fields, nil)`. -/
abbrev Schema := List Field

/-- `arrow.NewSchema(fields, nil)`: keeps the fields in the order given. -/
def NewSchema (fields : List Field) : Schema := fields

/-- A finite binary floating-point value `mant * 2 ^ exp` (all float constants of
the program are positive, so no sign is carried). -/
structure Binary where
  mant : Nat
  exp : Int
  deriving DecidableEq, Repr

/-- Multiply by `2 ^ k` when `k` is positive, leave unchanged otherwise. -/
def shl (n : Nat) (k : Int) : Nat := n * 2 ^ k.toNat

/-- Position of the highest set bit of `n` (0 for `n < 2`), by halving at most
`fuel` times. -/
def log2Aux : Nat → Nat → Nat
  | 0, _ => 0
  | fuel + 1, n => if n < 2 then 0 else log2Aux fuel (n / 2) + 1

/-- Integer binary logarithm, rounded down. -/
def log2 (n : Nat) : Nat := log2Aux n n

/-- Conversion of the exact constant `num / den` to a binary float with a
significand of `prec` bits, rounding to nearest, ties to even: the conversion Go
applies to an untyped floating-point constant used at type `float32`
(`prec = 24`) or `float64` (`prec = 53`).  The exponent range is not limited
here; `inNormalRange` states that a result lies in the normal range of its
format. -/
def roundToBinary (prec num den : Nat) : Binary :=
  if num = 0 then ⟨0, 0⟩ else
  let e0 : Int := (log2 num : Int) - (log2 den : Int)
  let e : Int := if shl num (-e0) < shl den e0 then e0 - 1 else e0
  let s : Int := (prec : Int) - 1 - e
  let n := shl num s
  let d := shl den (-s)
  let q := n / d
  let r := n % d
  let m := if d < 2 * r ∨ (2 * r = d ∧ q % 2 = 1) then q + 1 else q
  if m = 2 ^ prec then ⟨2 ^ (prec - 1), -s + 1⟩ else ⟨m, -s⟩

/-- The `float32` value of the decimal constant `num / den`. -/
def float32Lit (num den : Nat) : Binary := roundToBinary 24 num den

/-- The `float64` value of the decimal constant `num / den`. -/
def float64Lit (num den : Nat) : Binary := roundToBinary 53 num den

/-- A nonzero result of `roundToBinary prec` is normalised and its exponent lies
between `emin` and `emax` (for `float32`: -126 and 127, for `float64`: -1022 and
1023). -/
def inNormalRange (prec : Nat) (emin emax : Int) (b : Binary) : Bool :=
  decide (2 ^ (prec - 1) ≤ b.mant) && decide (b.mant < 2 ^ prec) &&
    decide (emin ≤ b.exp + (prec : Int) - 1) && decide (b.exp + (prec : Int) - 1 ≤ emax)

/-- A Go slice literal of one of the element types the builders accept:
`[]int32`, `[]int64`, `[]float32`, `[]float64`, `[]string`, `[]bool`. -/
inductive Values where
  | int32 (vs : List Int)
  | int64 (vs : List Int)
  | float32 (vs : List Binary)
  | float64 (vs : List Binary)
  | string (vs : List String)
  | boolean (vs : List Bool)
  deriving DecidableEq, Repr

/-- A column under construction or finished: the values of one type, each slot
either present (`some`) or null (`none`).  The constructor is the dynamic type
of the field builder (`*array.Int32Builder`, ..., `*array.BooleanBuilder`). -/
inductive Column where
  | int32 (vs : List (Option Int))
  | int64 (vs : List (Option Int))
  | float32 (vs : List (Option Binary))
  | float64 (vs : List (Option Binary))
  | string (vs : List (Option String))
  | boolean (vs : List (Option Bool))
  deriving DecidableEq, Repr

/-- The data type a column (or builder) holds. -/
def Column.type : Column → DataType
  | .int32 _ => .int32
  | .int64 _ => .int64
  | .float32 _ => .float32
  | .float64 _ => .float64
  | .string _ => .string
  | .boolean _ => .boolean

/-- The element type of a slice literal, which is also the builder type the
source asserts before calling `AppendValues` with it. -/
def Values.type : Values → DataType
  | .int32 _ => .int32
  | .int64 _ => .int64
  | .float32 _ => .float32
  | .float64 _ => .float64
  | .string _ => .string
  | .boolean _ => .boolean

/-- Number of slots of a column (`Len()`). -/
def Column.len : Column → Nat
  | .int32 vs => vs.length
  | .int64 vs => vs.length
  | .float32 vs => vs.length
  | .float64 vs => vs.length
  | .string vs => vs.length
  | .boolean vs => vs.length

/-- Number of null slots of a column (`NullN()`). -/
def Column.nullCount : Column → Nat
  | .int32 vs => (vs.filter Option.isNone).length
  | .int64 vs => (vs.filter Option.isNone).length
  | .float32 vs => (vs.filter Option.isNone).length
  | .float64 vs => (vs.filter Option.isNone).length
  | .string vs => (vs.filter Option.isNone).length
  | .boolean vs => (vs.filter Option.isNone).length

/-- An `arrow.Record`: schema, one column per field, and the row count. -/
structure Record where
  schema : Schema
  columns : List Column
  rows : Nat
  deriving DecidableEq, Repr

/-- An `array.RecordBuilder`: the schema and one field builder per schema
field. -/
structure RecordBuilder where
  schema : Schema
  fields : List Column
  deriving DecidableEq, Repr

/-- Modelled from the spec: the Arrow library is not part of the repository
sources.  `array.NewRecordBuilder(pool, schema)` creates, for each schema field
in order, an empty builder of the field's type ("one column per schema
entry"). -/
def newBuilder : DataType → Column
  | .int32 => .int32 []
  | .int64 => .int64 []
  | .float32 => .float32 []
  | .float64 => .float64 []
  | .string => .string []
  | .boolean => .boolean []

/-- Modelled from the spec: the Arrow library is not part of the repository
sources.  `array.NewRecordBuilder(pool, schema)`: one empty builder per schema
entry. -/
def NewRecordBuilder (schema : Schema) : RecordBuilder :=
  ⟨schema, schema.map (fun f => newBuilder f.type)⟩

/-- One source statement `builder.Field(i).(*array.TBuilder).AppendValues(vs, nil)`.
`Field(i)` indexes the builder slice and panics when `i` is out of range; the
type assertion panics when the builder at `i` is not a `TBuilder`; with a `nil`
validity slice `AppendValues` appends every value as present. -/
def RecordBuilder.appendValues (b : RecordBuilder) (i : Nat) (vs : Values) :
    Except String RecordBuilder :=
  match b.fields.get? i with
  | none => .error "index out of range"
  | some fb =>
    match fb, vs with
    | .int32 old, .int32 new => .ok ⟨b.schema, b.fields.set i (.int32 (old ++ new.map some))⟩
    | .int64 old, .int64 new => .ok ⟨b.schema, b.fields.set i (.int64 (old ++ new.map some))⟩
    | .float32 old, .float32 new =>
        .ok ⟨b.schema, b.fields.set i (.float32 (old ++ new.map some))⟩
    | .float64 old, .float64 new =>
        .ok ⟨b.schema, b.fields.set i (.float64 (old ++ new.map some))⟩
    | .string old, .string new => .ok ⟨b.schema, b.fields.set i (.string (old ++ new.map some))⟩
    | .boolean old, .boolean new =>
        .ok ⟨b.schema, b.fields.set i (.boolean (old ++ new.map some))⟩
    | _, _ => .error "interface conversion"

/-- The fill statements of a recipe, executed in source order. -/
def RecordBuilder.fill (b : RecordBuilder) : List (Nat × Values) → Except String RecordBuilder
  | [] => .ok b
  | (i, vs) :: rest =>
    match b.appendValues i vs with
    | .error e => .error e
    | .ok b1 => b1.fill rest

/-- Modelled from the spec: the Arrow library is not part of the repository
sources.  `builder.NewRecord()` turns the builders into the columns of a
record; "all columns must have equal length (= row count)", and the call panics
when a column's length differs from the first one's. -/
def RecordBuilder.NewRecord (b : RecordBuilder) : Except String Record :=
  let rows := (b.fields.head?.map Column.len).getD 0
  if b.fields.all (fun c => c.len == rows) then .ok ⟨b.schema, b.fields, rows⟩
  else .error "mismatch number of rows"

/-- The record a recipe builds: `NewRecordBuilder`, the fill statements, then
`NewRecord`.  An error is a Go panic. -/
def buildRecord (schema : Schema) (fills : List (Nat × Values)) : Except String Record :=
  match (NewRecordBuilder schema).fill fills with
  | .error e => .error e
  | .ok b => b.NewRecord

/-! ## The three recipes: literals of the source -/

/-- Schema literal of `createMinimalFile`. -/
def minimalSchema : Schema := NewSchema [⟨"value", .int32⟩]

/-- Fill statement of `createMinimalFile`: field index and slice literal. -/
def minimalFills : List (Nat × Values) := [(0, .int32 [42])]

/-- Schema literal of `createSimpleFile`. -/
def simpleSchema : Schema :=
  NewSchema [⟨"id", .int32⟩, ⟨"name", .string⟩, ⟨"age", .int32⟩]

/-- Fill statements of `createSimpleFile`, in source order. -/
def simpleFills : List (Nat × Values) :=
  [(0, .int32 [1, 2, 3, 4, 5]),
   (1, .string ["Alice", "Bob", "Charlie", "Diana", "Eve"]),
   (2, .int32 [25, 30, 35, 28, 32])]

/-- Schema literal of `createTypesFile`. -/
def typesSchema : Schema :=
  NewSchema [⟨"int32_col", .int32⟩, ⟨"int64_col", .int64⟩, ⟨"float32_col", .float32⟩,
    ⟨"float64_col", .float64⟩, ⟨"string_col", .string⟩, ⟨"bool_col", .boolean⟩]

/-- Fill statements of `createTypesFile`, in source order.  The float constants
`1.1`, `2.2`, ... are the decimal fractions `11/10`, `22/10`, ... converted to
the element type of their slice. -/
def typesFills : List (Nat × Values) :=
  [(0, .int32 [1, 2, 3]),
   (1, .int64 [100, 200, 300]),
   (2, .float32 [float32Lit 11 10, float32Lit 22 10, float32Lit 33 10]),
   (3, .float64 [float64Lit 101 10, float64Lit 202 10, float64Lit 303 10]),
   (4, .string ["foo", "bar", "baz"]),
   (5, .boolean [true, false, true])]

/-! ## Control flow: events, deferred calls, process exit -/

/-- The external calls of `writeParquetFile` that can fail. -/
inductive Step where
  | create
  | newFileWriter
  | write
  | writerClose
  | fileClose
  deriving DecidableEq, Repr

/-- The outcome of every external call, per target filename: `none` is success
(a `nil` error), `some e` is failure with error text `e`.  An outcome is the
value a call returns, and the environment is not restricted to the values the
library can return for a given argument; a panic raised inside a library call
is not an outcome of this model. -/
abbrev Env := String → Step → Option String

/-- Observable actions of a run, in program order. -/
inductive Event where
  /-- text written to standard output by `fmt.Println` or `fmt.Printf` -/
  | stdout (text : String)
  /-- entry into `writeParquetFile` with its three arguments -/
  | writerCall (filename : String) (schema : Schema) (record : Record)
  /-- the call `os.Create(filename)` -/
  | osCreate (filename : String)
  /-- the call `pqarrow.NewFileWriter(schema, file, nil, DefaultWriterProps())` -/
  | newFileWriter (filename : String) (schema : Schema)
  /-- the call `writer.Write(record)` -/
  | write (filename : String) (record : Record)
  /-- the deferred call `writer.Close()`, with the error it returns -/
  | writerClose (filename : String) (result : Option String)
  /-- the deferred call `file.Close()`, with the error it returns -/
  | fileClose (filename : String) (result : Option String)
  /-- the deferred call `builder.Release()` of the named recipe function -/
  | builderRelease (owner : String)
  /-- the deferred call `record.Release()` of the named recipe function -/
  | recordRelease (owner : String)
  /-- the message of `log.Fatalf`, which then calls `os.Exit(1)` -/
  | fatal (message : String)
  /-- an unrecovered Go panic ending the process -/
  | crash (message : String)
  deriving DecidableEq, Repr

/-- How a function activation ended: by returning to its caller, or by ending the
process with an exit status. -/
inductive Status where
  | returned
  | exited (code : Nat)
  deriving DecidableEq, Repr

/-- The events of an activation and how it ended. -/
structure Run where
  trace : List Event
  status : Status
  deriving DecidableEq, Repr

/-- Leaving a function with the deferred calls `deferred` pending (listed in
execution order, last registered first).  A return runs them; `os.Exit`, which
`log.Fatalf` calls, ends the process at once and runs none of them.  The values
the deferred calls return are discarded: they appear in the events and have no
effect on the status. -/
def leave (deferred : List Event) (r : Run) : Run :=
  match r.status with
  | .returned => ⟨r.trace ++ deferred, .returned⟩
  | .exited code => ⟨r.trace, .exited code⟩

/-- Sequencing of statements: the next statement runs only when the previous one
returned. -/
def andThen (r : Run) (next : Unit → Run) : Run :=
  match r.status with
  | .returned => ⟨r.trace ++ (next ()).trace, (next ()).status⟩
  | .exited code => ⟨r.trace, .exited code⟩

/-- The function `writeParquetFile` (source lines 89-109). -/
def writeParquetFile (env : Env) (filename : String) (schema : Schema) (record : Record) :
    Run :=
  let t0 := [Event.writerCall filename schema record, Event.osCreate filename]
  match env filename .create with
  | some err =>
    ⟨t0 ++ [.fatal ("Failed to create " ++ filename ++ ": " ++ err)], .exited 1⟩
  | none =>
    -- defer file.Close()
    let t1 := t0 ++ [Event.newFileWriter filename schema]
    match env filename .newFileWriter with
    | some err =>
      leave [.fileClose filename (env filename .fileClose)]
        ⟨t1 ++ [.fatal ("Failed to create writer for " ++ filename ++ ": " ++ err)], .exited 1⟩
    | none =>
      -- defer writer.Close()
      let t2 := t1 ++ [Event.write filename record]
      match env filename .write with
      | some err =>
        leave [.writerClose filename (env filename .writerClose),
            .fileClose filename (env filename .fileClose)]
          ⟨t2 ++ [.fatal ("Failed to write record to " ++ filename ++ ": " ++ err)], .exited 1⟩
      | none =>
        leave [.writerClose filename (env filename .writerClose),
            .fileClose filename (env filename .fileClose)]
          ⟨t2 ++ [.stdout ("Successfully created " ++ filename ++ "\n")], .returned⟩

/-- The common body of the three recipe functions: print the banner, build the
schema and the record (`defer builder.Release()`, `defer record.Release()`),
call `writeParquetFile`.  A panic while filling the builder runs the one
deferred call registered so far and ends the process with status 2. -/
def createFile (env : Env) (owner banner filename : String) (schema : Schema)
    (fills : List (Nat × Values)) : Run :=
  let t0 := [Event.stdout banner]
  match buildRecord schema fills with
  | .error msg => ⟨t0 ++ [.builderRelease owner, .crash msg], .exited 2⟩
  | .ok record =>
    let w := writeParquetFile env filename schema record
    leave [.recordRelease owner, .builderRelease owner] ⟨t0 ++ w.trace, w.status⟩

/-- The function `createSimpleFile` (source lines 15-37). -/
def createSimpleFile (env : Env) : Run :=
  createFile env "createSimpleFile" "Creating simple.parquet...\n" "simple.parquet"
    simpleSchema simpleFills

/-- The function `createTypesFile` (source lines 39-67). -/
def createTypesFile (env : Env) : Run :=
  createFile env "createTypesFile" "Creating types.parquet...\n" "types.parquet"
    typesSchema typesFills

/-- The function `createMinimalFile` (source lines 69-87). -/
def createMinimalFile (env : Env) : Run :=
  createFile env "createMinimalFile" "Creating minimal.parquet...\n" "minimal.parquet"
    minimalSchema minimalFills

/-- The three summary lines `main` prints last (source lines 119-121). -/
def summaryLines : List String :=
  ["  - minimal.parquet (1 column, 1 row)\n",
   "  - simple.parquet (3 columns, 5 rows)\n",
   "  - types.parquet (6 columns, 3 rows, all major types)\n"]

/-- The function `main` (source lines 111-122). -/
def main (env : Env) : Run :=
  andThen ⟨[.stdout "Generating spec-compliant Parquet test files...\n"], .returned⟩ fun _ =>
  andThen (createMinimalFile env) fun _ =>
  andThen (createSimpleFile env) fun _ =>
  andThen (createTypesFile env) fun _ =>
  ⟨.stdout "Done! Generated:\n" :: summaryLines.map Event.stdout, .returned⟩

/-- The exit status of the process: 0 when `main` returns, the argument of
`os.Exit` otherwise. -/
def exitCode (r : Run) : Nat :=
  match r.status with
  | .returned => 0
  | .exited code => code

/-! ## Vocabulary of the specification -/

/-- A schema as the ordered list of (name, type) pairs of the specification. -/
def schemaPairs (s : Schema) : List (String × DataType) :=
  s.map fun f => (f.name, f.type)

/-- Specification, section 4.1: schema of `minimal.*`. -/
def specMinimalSchema : List (String × DataType) := [("value", .int32)]

/-- Specification, section 4.1: schema of `simple.*`. -/
def specSimpleSchema : List (String × DataType) :=
  [("id", .int32), ("name", .string), ("age", .int32)]

/-- Specification, section 4.1: schema of `types.*`. -/
def specTypesSchema : List (String × DataType) :=
  [("int32_col", .int32), ("int64_col", .int64), ("float32_col", .float32),
   ("float64_col", .float64), ("string_col", .string), ("bool_col", .boolean)]

/-- All values of a list of slots, when none of them is null. -/
def allPresent {α : Type} : List (Option α) → Option (List α)
  | [] => some []
  | none :: _ => none
  | some a :: rest => (allPresent rest).map (a :: ·)

/-- The values of a column, when it has no null entry. -/
def Column.present : Column → Option Values
  | .int32 vs => (allPresent vs).map Values.int32
  | .int64 vs => (allPresent vs).map Values.int64
  | .float32 vs => (allPresent vs).map Values.float32
  | .float64 vs => (allPresent vs).map Values.float64
  | .string vs => (allPresent vs).map Values.string
  | .boolean vs => (allPresent vs).map Values.boolean

/-- The columns of a record in schema order, each under the name of its schema
entry, with its values when none is null. -/
def namedColumns (r : Record) : List (String × Option Values) :=
  (r.schema.map Field.name).zip (r.columns.map Column.present)

/-- Specification, section 4.1: data of `minimal.*`. -/
def specMinimalData : List (String × Option Values) := [("value", some (.int32 [42]))]

/-- Specification, section 4.1: data of `simple.*`. -/
def specSimpleData : List (String × Option Values) :=
  [("id", some (.int32 [1, 2, 3, 4, 5])),
   ("name", some (.string ["Alice", "Bob", "Charlie", "Diana", "Eve"])),
   ("age", some (.int32 [25, 30, 35, 28, 32]))]

/-- Specification, section 4.1: data of `types.*`, the float columns holding the
`float32` and `float64` values of the decimal literals. -/
def specTypesData : List (String × Option Values) :=
  [("int32_col", some (.int32 [1, 2, 3])),
   ("int64_col", some (.int64 [100, 200, 300])),
   ("float32_col", some (.float32 [float32Lit 11 10, float32Lit 22 10, float32Lit 33 10])),
   ("float64_col", some (.float64 [float64Lit 101 10, float64Lit 202 10, float64Lit 303 10])),
   ("string_col", some (.string ["foo", "bar", "baz"])),
   ("bool_col", some (.boolean [true, false, true]))]

/-- The records the three recipes hand to the writer, written out. -/
def minimalRecord : Record := ⟨minimalSchema, [.int32 [some 42]], 1⟩

/-- The record of the `simple` recipe, written out. -/
def simpleRecord : Record :=
  ⟨simpleSchema,
   [.int32 [some 1, some 2, some 3, some 4, some 5],
    .string [some "Alice", some "Bob", some "Charlie", some "Diana", some "Eve"],
    .int32 [some 25, some 30, some 35, some 28, some 32]], 5⟩

/-- The record of the `types` recipe, written out. -/
def typesRecord : Record :=
  ⟨typesSchema,
   [.int32 [some 1, some 2, some 3],
    .int64 [some 100, some 200, some 300],
    .float32 [some (float32Lit 11 10), some (float32Lit 22 10), some (float32Lit 33 10)],
    .float64 [some (float64Lit 101 10), some (float64Lit 202 10), some (float64Lit 303 10)],
    .string [some "foo", some "bar", some "baz"],
    .boolean [some true, some false, some true]], 3⟩

/-- The invocations of `writeParquetFile` in a trace, with their arguments. -/
def writerCalls : List Event → List (String × Schema × Record)
  | [] => []
  | .writerCall f s r :: rest => (f, s, r) :: writerCalls rest
  | _ :: rest => writerCalls rest

/-- The file a writer step works on; `none` for the other events. -/
def Event.target : Event → Option String
  | .writerCall f _ _ => some f
  | .osCreate f => some f
  | .newFileWriter f _ => some f
  | .write f _ => some f
  | .writerClose f _ => some f
  | .fileClose f _ => some f
  | _ => none

/-- The event is a `file.Close()` of the named file, whatever it returned. -/
def Event.isFileClose (filename : String) : Event → Bool
  | .fileClose f _ => f == filename
  | _ => false

/-- The event is a `writer.Close()` on the named file, whatever it returned. -/
def Event.isWriterClose (filename : String) : Event → Bool
  | .writerClose f _ => f == filename
  | _ => false

/-- The success notice of `writeParquetFile` for a filename. -/
def successNotice (filename : String) : Event :=
  .stdout ("Successfully created " ++ filename ++ "\n")

/-- The target filenames in the order `main` runs the recipes. -/
def fileName : Fin 3 → String
  | 0 => "minimal.parquet"
  | 1 => "simple.parquet"
  | 2 => "types.parquet"

/-- The three steps whose error `writeParquetFile` checks all succeed for a file. -/
def checkedOk (env : Env) (filename : String) : Prop :=
  env filename .create = none ∧ env filename .newFileWriter = none ∧
    env filename .write = none

/-- The environment in which every external call succeeds. -/
def allOk : Env := fun _ _ => none

/-- Event `a` occurs in the trace, event `b` occurs, and the first `a` comes
before the first `b`. -/
def occursBefore (a b : Event) (t : List Event) : Bool :=
  decide (b ∈ t) && decide (t.indexOf a < t.indexOf b)

/-- A count with its noun, in the plural unless the count is one. -/
def counted (n : Nat) (noun : String) : String :=
  toString n ++ " " ++ noun ++ (if n = 1 then "" else "s")

/-- A summary line for a file with the given column and row counts. -/
def countLine (filename : String) (cols rows : Nat) (note : String) : String :=
  "  - " ++ filename ++ " (" ++ counted cols "column" ++ ", " ++ counted rows "row" ++ note ++
    ")\n"

/-! ## Vocabulary of the claims about the control flow -/

/-- The first failing checked step of the run belongs to file `k`: the three
checked steps succeed for every earlier file and one of them fails for file
`k`. -/
def firstFailureAt (env : Env) (k : Fin 3) : Prop :=
  (∀ j : Fin 3, j < k → checkedOk env (fileName j)) ∧ ¬ checkedOk env (fileName k)

/-- The run stopped at file `k`: non-zero exit status, no writer step on any
later file, no success notice for file `k`, and no final summary. -/
def haltedAt (k : Fin 3) (r : Run) : Prop :=
  exitCode r ≠ 0 ∧
  (∀ j : Fin 3, k < j → ∀ e ∈ r.trace, e.target ≠ some (fileName j)) ∧
  successNotice (fileName k) ∉ r.trace ∧
  Event.stdout "Done! Generated:\n" ∉ r.trace ∧
  ∀ s ∈ summaryLines, Event.stdout s ∉ r.trace

/-- In the trace the serializer close on file `f` is executed, after it the file
close on `f`, and after both the event `next`; what the two close calls return
plays no part. -/
def closedBefore (f : String) (next : Event) (t : List Event) : Bool :=
  decide (next ∈ t) &&
    decide (t.findIdx (Event.isWriterClose f) < t.findIdx (Event.isFileClose f)) &&
    decide (t.findIdx (Event.isFileClose f) < t.indexOf next)

/-- The environment of a run without I/O failure: every checked step succeeds and
`writer.Close` succeeds; `writer.Close` has closed the file it writes to, so the
deferred `file.Close` that follows returns the error of closing a file twice. -/
def closedByWriter : Env := fun f s =>
  match s with
  | .fileClose => some ("close " ++ f ++ ": file already closed")
  | _ => none

/-- The events of one recipe function when the three checked steps of the writer
succeed; the close calls return what the environment says. -/
def recipeEvents (env : Env) (owner banner f : String) (s : Schema) (r : Record) :
    List Event :=
  [.stdout banner, .writerCall f s r, .osCreate f, .newFileWriter f s, .write f r,
   successNotice f, .writerClose f (env f .writerClose), .fileClose f (env f .fileClose),
   .recordRelease owner, .builderRelease owner]

/-- The trace of a run of `main` in which no checked step fails. -/
def successTrace (env : Env) : List Event :=
  [.stdout "Generating spec-compliant Parquet test files...\n"] ++
  recipeEvents env "createMinimalFile" "Creating minimal.parquet...\n" "minimal.parquet"
    minimalSchema minimalRecord ++
  recipeEvents env "createSimpleFile" "Creating simple.parquet...\n" "simple.parquet"
    simpleSchema simpleRecord ++
  recipeEvents env "createTypesFile" "Creating types.parquet...\n" "types.parquet"
    typesSchema typesRecord ++
  [.stdout "Done! Generated:\n",
   .stdout "  - minimal.parquet (1 column, 1 row)\n",
   .stdout "  - simple.parquet (3 columns, 5 rows)\n",
   .stdout "  - types.parquet (6 columns, 3 rows, all major types)\n"]

/-- The first failing checked step of the run is `writer.Write` on file `k`. -/
def writeFailsAt (env : Env) (k : Fin 3) : Prop :=
  (∀ j : Fin 3, j < k → checkedOk env (fileName j)) ∧
  env (fileName k) .create = none ∧ env (fileName k) .newFileWriter = none ∧
  env (fileName k) .write ≠ none

/-- An environment in which `writer.Close` and `file.Close` fail for every file
and every other call succeeds. -/
def closesFail : Env := fun _ s =>
  match s with
  | .writerClose => some "write footer: no space left on device"
  | .fileClose => some "close: input/output error"
  | _ => none

/-- The check `FileWriter.Write(record)` of the pqarrow library makes before it
writes anything: a record whose schema is not the schema the writer was created
for is refused with an error; the writer and the file are left as they are. -/
def schemaMismatch (schema : Schema) (record : Record) : Option String :=
  if record.schema = schema then none else some "record schema does not match writer schema"

/-- The environment of the call
`writeParquetFile("out.parquet", simpleSchema, minimalRecord)`: the file is
created, the writer is initialised for the three-column schema, and `Write`
refuses the one-column record. -/
def mismatchedCall : Env := fun _ s =>
  match s with
  | .write => schemaMismatch simpleSchema minimalRecord
  | _ => none

/-- An environment in which `writer.Write` fails for `simple.parquet` and every
other call succeeds. -/
def writeFails : Env := fun f s =>
  if f = "simple.parquet" ∧ s = .write then some "no space left on device" else none

/-- None of the checked steps fails, for any of the three files; the outcomes of
the close calls are left open. -/
def noCheckedFailure (env : Env) : Prop :=
  ∀ k : Fin 3, checkedOk env (fileName k)

/-- The fill statements of a recipe address each schema column exactly once, in
schema order, every index in range, and the builder type asserted at an index
is the type of the builder `NewRecordBuilder` made for that schema column. -/
def fillsMatch (schema : Schema) (fills : List (Nat × Values)) : Bool :=
  decide (fills.map Prod.fst = List.range schema.length) &&
    fills.all fun p =>
      decide (p.1 < schema.length) &&
        decide (((NewRecordBuilder schema).fields.get? p.1).map Column.type = some p.2.type)

/-- A run contains no panic. -/
def noCrash (r : Run) : Bool :=
  r.trace.all (fun e => match e with
    | .crash _ => false
    | _ => true) && decide (r.status ≠ .exited 2)

/-! ## The recipes build their records without panic -/

theorem buildRecord_minimal : buildRecord minimalSchema minimalFills = .ok minimalRecord := rfl

theorem buildRecord_simple : buildRecord simpleSchema simpleFills = .ok simpleRecord := rfl

theorem buildRecord_types : buildRecord typesSchema typesFills = .ok typesRecord := rfl

/-- The float constants of the `types` recipe, as binary values; each lies in
the normal range of its format, so the conversion neither overflows nor
underflows. -/
theorem float_literals :
    float32Lit 11 10 = ⟨9227469, -23⟩ ∧ float32Lit 22 10 = ⟨9227469, -22⟩ ∧
    float32Lit 33 10 = ⟨13841203, -22⟩ ∧
    float64Lit 101 10 = ⟨5685794529555251, -49⟩ ∧
    float64Lit 202 10 = ⟨5685794529555251, -48⟩ ∧
    float64Lit 303 10 = ⟨8528691794332877, -48⟩ ∧
    ([float32Lit 11 10, float32Lit 22 10, float32Lit 33 10].all
      (inNormalRange 24 (-126) 127) = true) ∧
    ([float64Lit 101 10, float64Lit 202 10, float64Lit 303 10].all
      (inNormalRange 53 (-1022) 1023) = true) := by
  decide

/-! ## Shape of the traces of `writeParquetFile` and of the recipe functions -/

theorem writerCalls_append (t u : List Event) :
    writerCalls (t ++ u) = writerCalls t ++ writerCalls u := by
  induction t with
  | nil => rfl
  | cons e t ih => cases e <;> simp [writerCalls, ih]

/-- The writer's trace when its three checked steps succeed. -/
theorem writeParquetFile_ok (env : Env) (f : String) (s : Schema) (r : Record)
    (h : checkedOk env f) :
    writeParquetFile env f s r =
      ⟨[.writerCall f s r, .osCreate f, .newFileWriter f s, .write f r, successNotice f,
        .writerClose f (env f .writerClose), .fileClose f (env f .fileClose)],
       .returned⟩ := by
  obtain ⟨h1, h2, h3⟩ := h
  simp [writeParquetFile, h1, h2, h3, leave, successNotice]

/-- The writer's run when one of its three checked steps fails: the process
exits with status 1 after the steps up to the failing one and the `log.Fatalf`
message, which names the file and the error; no deferred call has run. -/
theorem writeParquetFile_fail (env : Env) (f : String) (s : Schema) (r : Record)
    (h : ¬ checkedOk env f) :
    ∃ e,
      writeParquetFile env f s r =
        ⟨[.writerCall f s r, .osCreate f, .fatal ("Failed to create " ++ f ++ ": " ++ e)],
         .exited 1⟩ ∨
      writeParquetFile env f s r =
        ⟨[.writerCall f s r, .osCreate f, .newFileWriter f s,
          .fatal ("Failed to create writer for " ++ f ++ ": " ++ e)], .exited 1⟩ ∨
      writeParquetFile env f s r =
        ⟨[.writerCall f s r, .osCreate f, .newFileWriter f s, .write f r,
          .fatal ("Failed to write record to " ++ f ++ ": " ++ e)], .exited 1⟩ := by
  unfold checkedOk at h
  cases h1 : env f .create with
  | some e1 => exact ⟨e1, Or.inl (by simp [writeParquetFile, h1])⟩
  | none =>
    cases h2 : env f .newFileWriter with
    | some e2 => exact ⟨e2, Or.inr (Or.inl (by simp [writeParquetFile, h1, h2, leave]))⟩
    | none =>
      cases h3 : env f .write with
      | some e3 =>
        exact ⟨e3, Or.inr (Or.inr (by simp [writeParquetFile, h1, h2, h3, leave]))⟩
      | none => exact absurd ⟨h1, h2, h3⟩ h

/-- Every run of the writer records exactly one invocation, its own. -/
theorem writerCalls_writeParquetFile (env : Env) (f : String) (s : Schema) (r : Record) :
    writerCalls (writeParquetFile env f s r).trace = [(f, s, r)] := by
  by_cases h : checkedOk env f
  · rw [writeParquetFile_ok env f s r h]; simp [writerCalls, successNotice]
  · obtain ⟨e, ht | ht | ht⟩ := writeParquetFile_fail env f s r h <;>
      rw [ht] <;> simp [writerCalls]

/-- A recipe whose record builds hands the writer its filename, its schema and
that record, once, whatever the writer then does. -/
theorem writerCalls_createFile (env : Env) (owner banner f : String) (s : Schema)
    (fills : List (Nat × Values)) (r : Record) (h : buildRecord s fills = .ok r) :
    writerCalls (createFile env owner banner f s fills).trace = [(f, s, r)] := by
  have hw := writerCalls_writeParquetFile env f s r
  unfold createFile
  rw [h]
  simp only [leave]
  split <;> simp [writerCalls_append, writerCalls, hw]

/-! ## C1, C2: the schema and the data handed to the writer -/

/-- C1: in every run of each recipe function the writer is invoked once, with a
schema that is the literal ordered list of (name, type) pairs of the
specification; the column names of each schema are pairwise distinct. -/
theorem recipe_schemas (env : Env) :
    (writerCalls (createMinimalFile env).trace).map (fun c => schemaPairs c.2.1) =
        [specMinimalSchema] ∧
    (writerCalls (createSimpleFile env).trace).map (fun c => schemaPairs c.2.1) =
        [specSimpleSchema] ∧
    (writerCalls (createTypesFile env).trace).map (fun c => schemaPairs c.2.1) =
        [specTypesSchema] ∧
    (minimalSchema.map Field.name).Nodup ∧ (simpleSchema.map Field.name).Nodup ∧
    (typesSchema.map Field.name).Nodup := by
  refine ⟨?_, ?_, ?_, by decide, by decide, by decide⟩
  · rw [createMinimalFile, writerCalls_createFile _ _ _ _ _ _ _ buildRecord_minimal]; rfl
  · rw [createSimpleFile, writerCalls_createFile _ _ _ _ _ _ _ buildRecord_simple]; rfl
  · rw [createTypesFile, writerCalls_createFile _ _ _ _ _ _ _ buildRecord_types]; rfl

/-- C2: in every run of each recipe function the record handed to the writer
holds, column by column in schema order, the literal data of the specification
(the float columns as the `float32` / `float64` values of the decimal
literals, whose significands and exponents the last two conjuncts give), and no
column has a null entry. -/
theorem recipe_data (env : Env) :
    (writerCalls (createMinimalFile env).trace).map (fun c => namedColumns c.2.2) =
        [specMinimalData] ∧
    (writerCalls (createSimpleFile env).trace).map (fun c => namedColumns c.2.2) =
        [specSimpleData] ∧
    (writerCalls (createTypesFile env).trace).map (fun c => namedColumns c.2.2) =
        [specTypesData] ∧
    (∀ c ∈ writerCalls (createMinimalFile env).trace ++
          writerCalls (createSimpleFile env).trace ++
          writerCalls (createTypesFile env).trace,
      ∀ col ∈ c.2.2.columns, col.nullCount = 0) ∧
    specTypesData.lookup "float32_col" =
      some (some (.float32 [⟨9227469, -23⟩, ⟨9227469, -22⟩, ⟨13841203, -22⟩])) ∧
    specTypesData.lookup "float64_col" =
      some (some (.float64 [⟨5685794529555251, -49⟩, ⟨5685794529555251, -48⟩,
        ⟨8528691794332877, -48⟩])) := by
  rw [createMinimalFile, createSimpleFile, createTypesFile,
    writerCalls_createFile _ _ _ _ _ _ _ buildRecord_minimal,
    writerCalls_createFile _ _ _ _ _ _ _ buildRecord_simple,
    writerCalls_createFile _ _ _ _ _ _ _ buildRecord_types]
  refine ⟨by decide, by decide, by decide, by decide, by decide, by decide⟩

/-! ## C7, C10: shape of the batches, and the builder fills -/

theorem appendValues_shape (b b1 : RecordBuilder) (i : Nat) (vs : Values)
    (h : b.appendValues i vs = .ok b1) :
    b1.schema = b.schema ∧ b1.fields.length = b.fields.length := by
  unfold RecordBuilder.appendValues at h
  split at h
  · cases h
  · split at h <;> cases h <;> simp

theorem fill_shape (fills : List (Nat × Values)) (b b1 : RecordBuilder)
    (h : b.fill fills = .ok b1) :
    b1.schema = b.schema ∧ b1.fields.length = b.fields.length := by
  induction fills generalizing b with
  | nil => simp [RecordBuilder.fill] at h; subst h; exact ⟨rfl, rfl⟩
  | cons p rest ih =>
    obtain ⟨i, vs⟩ := p
    simp only [RecordBuilder.fill] at h
    split at h
    · cases h
    · rename_i b2 h2
      obtain ⟨hs, hl⟩ := appendValues_shape b b2 i vs h2
      obtain ⟨hs1, hl1⟩ := ih b2 h
      exact ⟨hs1.trans hs, hl1.trans hl⟩

/-- Every record `buildRecord` returns, for any schema and any fill statements,
has the schema it was built for, one column per schema entry, and columns that
all have the record's row count as their length. -/
theorem buildRecord_shape (s : Schema) (fills : List (Nat × Values)) (r : Record)
    (h : buildRecord s fills = .ok r) :
    r.schema = s ∧ r.columns.length = s.length ∧ ∀ c ∈ r.columns, c.len = r.rows := by
  unfold buildRecord at h
  split at h
  · cases h
  · rename_i b hb
    obtain ⟨hs, hl⟩ := fill_shape fills _ b hb
    simp only [RecordBuilder.NewRecord] at h
    split at h
    · rename_i hall
      injection h with h
      subst h
      refine ⟨by simpa [NewRecordBuilder] using hs, by simpa [NewRecordBuilder] using hl, ?_⟩
      intro c hc
      have := List.all_eq_true.mp hall c hc
      simpa using this
    · cases h

/-- C7: the batch each recipe builds has one column per schema entry and all its
columns have the row count as length; the counts are 1 column and 1 row for
minimal, 3 and 5 for simple, 6 and 3 for types, and the three summary lines of
`main` are the lines that announce exactly these counts of these batches. -/
theorem batch_shapes :
    buildRecord minimalSchema minimalFills = .ok minimalRecord ∧
    buildRecord simpleSchema simpleFills = .ok simpleRecord ∧
    buildRecord typesSchema typesFills = .ok typesRecord ∧
    ([minimalRecord, simpleRecord, typesRecord].all fun r =>
      decide (r.columns.length = r.schema.length) &&
        r.columns.all fun c => decide (c.len = r.rows)) = true ∧
    [minimalRecord, simpleRecord, typesRecord].map (fun r => (r.columns.length, r.rows)) =
      [(1, 1), (3, 5), (6, 3)] ∧
    summaryLines =
      [countLine "minimal.parquet" minimalRecord.columns.length minimalRecord.rows "",
       countLine "simple.parquet" simpleRecord.columns.length simpleRecord.rows "",
       countLine "types.parquet" typesRecord.columns.length typesRecord.rows
         ", all major types"] ∧
    (main allOk).trace.drop ((main allOk).trace.length - 3) = summaryLines.map Event.stdout :=
  ⟨rfl, rfl, rfl, by decide, by decide, by decide, by decide⟩

theorem createFile_ok (env : Env) (owner banner f : String) (s : Schema)
    (fills : List (Nat × Values)) (r : Record) (hb : buildRecord s fills = .ok r)
    (h : checkedOk env f) :
    createFile env owner banner f s fills =
      ⟨[.stdout banner, .writerCall f s r, .osCreate f, .newFileWriter f s, .write f r,
        successNotice f, .writerClose f (env f .writerClose),
        .fileClose f (env f .fileClose), .recordRelease owner, .builderRelease owner],
       .returned⟩ := by
  simp [createFile, hb, writeParquetFile_ok env f s r h, leave]

theorem createFile_fail (env : Env) (owner banner f : String) (s : Schema)
    (fills : List (Nat × Values)) (r : Record) (hb : buildRecord s fills = .ok r)
    (h : ¬ checkedOk env f) :
    ∃ e,
      createFile env owner banner f s fills =
        ⟨[.stdout banner, .writerCall f s r, .osCreate f,
          .fatal ("Failed to create " ++ f ++ ": " ++ e)], .exited 1⟩ ∨
      createFile env owner banner f s fills =
        ⟨[.stdout banner, .writerCall f s r, .osCreate f, .newFileWriter f s,
          .fatal ("Failed to create writer for " ++ f ++ ": " ++ e)], .exited 1⟩ ∨
      createFile env owner banner f s fills =
        ⟨[.stdout banner, .writerCall f s r, .osCreate f, .newFileWriter f s, .write f r,
          .fatal ("Failed to write record to " ++ f ++ ": " ++ e)], .exited 1⟩ := by
  obtain ⟨e, hw | hw | hw⟩ := writeParquetFile_fail env f s r h
  · exact ⟨e, Or.inl (by simp [createFile, hb, hw, leave])⟩
  · exact ⟨e, Or.inr (Or.inl (by simp [createFile, hb, hw, leave]))⟩
  · exact ⟨e, Or.inr (Or.inr (by simp [createFile, hb, hw, leave]))⟩

theorem noCrash_createFile (env : Env) (owner banner f : String) (s : Schema)
    (fills : List (Nat × Values)) (r : Record) (hb : buildRecord s fills = .ok r) :
    noCrash (createFile env owner banner f s fills) = true := by
  by_cases h : checkedOk env f
  · rw [createFile_ok env owner banner f s fills r hb h]; simp [noCrash, successNotice]
  · obtain ⟨e, hw | hw | hw⟩ := createFile_fail env owner banner f s fills r hb h <;>
      rw [hw] <;> simp [noCrash]

/-- C10: in each recipe every `builder.Field(i)` index is in range, the builder
type asserted at index `i` is the builder type of the schema column `i`, each
schema column is filled exactly once, the fills and `NewRecord` succeed, and no
run of a recipe function panics. -/
theorem recipes_do_not_panic (env : Env) :
    fillsMatch minimalSchema minimalFills = true ∧
    fillsMatch simpleSchema simpleFills = true ∧
    fillsMatch typesSchema typesFills = true ∧
    buildRecord minimalSchema minimalFills = .ok minimalRecord ∧
    buildRecord simpleSchema simpleFills = .ok simpleRecord ∧
    buildRecord typesSchema typesFills = .ok typesRecord ∧
    noCrash (createMinimalFile env) = true ∧
    noCrash (createSimpleFile env) = true ∧
    noCrash (createTypesFile env) = true :=
  ⟨by decide, by decide, by decide, rfl, rfl, rfl,
    noCrash_createFile env _ _ _ _ _ _ buildRecord_minimal,
    noCrash_createFile env _ _ _ _ _ _ buildRecord_simple,
    noCrash_createFile env _ _ _ _ _ _ buildRecord_types⟩

/-! ## Runs of `main` -/

theorem main_ok (env : Env) (h : ∀ k : Fin 3, checkedOk env (fileName k)) :
    main env = ⟨successTrace env, .returned⟩ := by
  have h0 : checkedOk env "minimal.parquet" := h 0
  have h1 : checkedOk env "simple.parquet" := h 1
  have h2 : checkedOk env "types.parquet" := h 2
  simp only [main, createMinimalFile, createSimpleFile, createTypesFile,
    createFile_ok env _ _ _ _ _ _ buildRecord_minimal h0,
    createFile_ok env _ _ _ _ _ _ buildRecord_simple h1,
    createFile_ok env _ _ _ _ _ _ buildRecord_types h2, andThen]
  rfl

theorem main_halts (env : Env) (k : Fin 3) (h : firstFailureAt env k) :
    haltedAt k (main env) := by
  obtain ⟨hprev, hfail⟩ := h
  fin_cases k
  · obtain ⟨e, hw | hw | hw⟩ :=
      createFile_fail env "createMinimalFile" "Creating minimal.parquet...\n" "minimal.parquet"
        _ _ _ buildRecord_minimal hfail <;>
    · simp only [main, createMinimalFile, hw, andThen]
      refine ⟨by simp [exitCode], ?_, by simp [successNotice, fileName], by simp, by simp [summaryLines]⟩
      intro j hj
      fin_cases j <;> simp [fileName, Event.target] at hj ⊢
  · have h0 : checkedOk env "minimal.parquet" := hprev 0 (by decide)
    obtain ⟨e, hw | hw | hw⟩ :=
      createFile_fail env "createSimpleFile" "Creating simple.parquet...\n" "simple.parquet"
        _ _ _ buildRecord_simple hfail <;>
    · simp only [main, createMinimalFile, createSimpleFile, hw, andThen,
        createFile_ok env _ _ _ _ _ _ buildRecord_minimal h0]
      refine ⟨by simp [exitCode], ?_, by simp [successNotice, fileName], by simp [successNotice],
        by simp [summaryLines, successNotice]⟩
      intro j hj
      fin_cases j <;> simp [fileName, Event.target, successNotice] at hj ⊢
  · have h0 : checkedOk env "minimal.parquet" := hprev 0 (by decide)
    have h1 : checkedOk env "simple.parquet" := hprev 1 (by decide)
    obtain ⟨e, hw | hw | hw⟩ :=
      createFile_fail env "createTypesFile" "Creating types.parquet...\n" "types.parquet"
        _ _ _ buildRecord_types hfail <;>
    · simp only [main, createMinimalFile, createSimpleFile, createTypesFile, hw, andThen,
        createFile_ok env _ _ _ _ _ _ buildRecord_minimal h0,
        createFile_ok env _ _ _ _ _ _ buildRecord_simple h1]
      refine ⟨by simp [exitCode], ?_, by simp [successNotice, fileName], by simp [successNotice],
        by simp [summaryLines, successNotice]⟩
      intro j hj
      fin_cases j <;> simp [fileName, Event.target, successNotice] at hj ⊢

/-! ## C3, C4: which failures halt the process -/

/-- C3: whatever the outcomes of the external calls, when the first failing step
among `os.Create`, `NewFileWriter` and `Write` belongs to the k-th file, the
run ends with a non-zero exit status, no writer step of a later file is
attempted, no success notice is printed for the k-th file, and neither
"Done! Generated:" nor any of the three summary lines is printed. -/
theorem checked_failure_halts (env : Env) (k : Fin 3) (h : firstFailureAt env k) :
    haltedAt k (main env) :=
  main_halts env k h

theorem firstFailureAt_writeFails : firstFailureAt writeFails 1 := by
  refine ⟨fun j hj => ?_, ?_⟩
  · fin_cases j
    · simp [checkedOk, writeFails, fileName]
    · exact absurd hj (by decide)
    · exact absurd hj (by decide)
  · simp [checkedOk, writeFails, fileName]

theorem checked_failure_halts_witness :
    firstFailureAt writeFails 1 ∧ haltedAt 1 (main writeFails) :=
  ⟨firstFailureAt_writeFails, checked_failure_halts writeFails 1 firstFailureAt_writeFails⟩

/-- C4, the claim as stated fails: with `writer.Close` and `file.Close` failing
for every file, both closes of `minimal.parquet` are executed, and yet the run
goes on to the later recipes, prints the final summary and exits with
status 0. -/
theorem close_failure_not_fatal :
    closesFail "minimal.parquet" .writerClose ≠ none ∧
    closesFail "minimal.parquet" .fileClose ≠ none ∧
    Event.writerClose "minimal.parquet" (some "write footer: no space left on device") ∈
      (main closesFail).trace ∧
    Event.fileClose "minimal.parquet" (some "close: input/output error") ∈
      (main closesFail).trace ∧
    Event.osCreate "simple.parquet" ∈ (main closesFail).trace ∧
    Event.osCreate "types.parquet" ∈ (main closesFail).trace ∧
    Event.stdout "Done! Generated:\n" ∈ (main closesFail).trace ∧
    exitCode (main closesFail) = 0 := by
  decide

/-- C4 as amended: a `writer.Write` failure halts the process like the other two
checked failures (first conjunct, for a run whose first failure is the `Write`
of file `k`); a failure of `writer.Close` or `file.Close` does not: when
`os.Create`, `NewFileWriter` and `Write` succeed for the three files, the run
is the full successful run, ending with the summary and exit status 0, whatever
the close calls return. -/
theorem write_fatal_close_ignored (envW envC : Env) (k : Fin 3) (hW : writeFailsAt envW k)
    (hC : noCheckedFailure envC) :
    haltedAt k (main envW) ∧
    main envC = ⟨successTrace envC, .returned⟩ ∧ exitCode (main envC) = 0 := by
  refine ⟨main_halts envW k ⟨hW.1, fun hc => hW.2.2.2 hc.2.2⟩, ?_⟩
  rw [main_ok envC hC]
  exact ⟨rfl, rfl⟩

theorem writeFailsAt_writeFails : writeFailsAt writeFails 1 := by
  refine ⟨firstFailureAt_writeFails.1, ?_, ?_, ?_⟩ <;> simp [writeFails, fileName]

theorem noCheckedFailure_closesFail : noCheckedFailure closesFail :=
  fun _ => ⟨rfl, rfl, rfl⟩

theorem write_fatal_close_ignored_witness :
    (writeFailsAt writeFails 1 ∧ noCheckedFailure closesFail) ∧
    haltedAt 1 (main writeFails) ∧
    main closesFail = ⟨successTrace closesFail, .returned⟩ ∧
    exitCode (main closesFail) = 0 :=
  ⟨⟨writeFailsAt_writeFails, noCheckedFailure_closesFail⟩,
    write_fatal_close_ignored writeFails closesFail 1 writeFailsAt_writeFails
      noCheckedFailure_closesFail⟩

/-! ## C5, C8: the deferred closes -/

/-- Every run of the writer that ends in `log.Fatalf` after `os.Create`
succeeded has executed neither deferred close: the trace has no `writer.Close`
and no `file.Close` on the file. -/
theorem fatal_skips_deferred_closes (env : Env) (f : String) (s : Schema) (r : Record)
    (h : ¬ checkedOk env f) :
    (writeParquetFile env f s r).status = .exited 1 ∧
    (writeParquetFile env f s r).trace.any (Event.isWriterClose f) = false ∧
    (writeParquetFile env f s r).trace.any (Event.isFileClose f) = false := by
  obtain ⟨e, hw | hw | hw⟩ := writeParquetFile_fail env f s r h <;>
    rw [hw] <;> simp [Event.isWriterClose, Event.isFileClose]

/-- C5, at the failing input: the writer is called with the three-column schema of
the simple recipe and the one-column record of the minimal recipe.  `os.Create`
and `NewFileWriter` succeed, `Write` refuses the record because its schema is
not the schema of the writer, and `log.Fatalf` ends the process with status 1:
the trace of the call has no `file.Close` and no `writer.Close` for the file
that `os.Create` opened. -/
theorem file_left_open_on_fatal :
    minimalRecord.schema ≠ simpleSchema ∧
    mismatchedCall "out.parquet" .create = none ∧
    mismatchedCall "out.parquet" .newFileWriter = none ∧
    writeParquetFile mismatchedCall "out.parquet" simpleSchema minimalRecord =
      ⟨[.writerCall "out.parquet" simpleSchema minimalRecord,
        .osCreate "out.parquet", .newFileWriter "out.parquet" simpleSchema,
        .write "out.parquet" minimalRecord,
        .fatal "Failed to write record to out.parquet: record schema does not match writer schema"],
       .exited 1⟩ ∧
    (writeParquetFile mismatchedCall "out.parquet" simpleSchema minimalRecord).trace.any
      (Event.isFileClose "out.parquet") = false ∧
    (writeParquetFile mismatchedCall "out.parquet" simpleSchema minimalRecord).trace.any
      (Event.isWriterClose "out.parquet") = false := by
  decide

/-- C8, the claim as stated fails: in the successful run of the writer on
`minimal.parquet` the success notice is printed, and it comes before the
serializer close and before the file close, neither of which has been executed
when the notice is printed. -/
theorem notice_precedes_close :
    successNotice "minimal.parquet" ∈
      (writeParquetFile allOk "minimal.parquet" minimalSchema minimalRecord).trace ∧
    occursBefore (.writerClose "minimal.parquet" none) (successNotice "minimal.parquet")
      (writeParquetFile allOk "minimal.parquet" minimalSchema minimalRecord).trace = false ∧
    occursBefore (.fileClose "minimal.parquet" none) (successNotice "minimal.parquet")
      (writeParquetFile allOk "minimal.parquet" minimalSchema minimalRecord).trace = false ∧
    occursBefore (successNotice "minimal.parquet") (.writerClose "minimal.parquet" none)
      (writeParquetFile allOk "minimal.parquet" minimalSchema minimalRecord).trace = true ∧
    occursBefore (successNotice "minimal.parquet") (.fileClose "minimal.parquet" none)
      (writeParquetFile allOk "minimal.parquet" minimalSchema minimalRecord).trace = true := by
  decide

/-- C8 as amended: in every run of `writeParquetFile` that prints the success
notice, `os.Create`, `NewFileWriter` and `Write` succeeded and were executed
before the notice, and the serializer close and then the file close are executed
after the notice, as the last two actions before the function returns. -/
theorem notice_after_write_before_close (env : Env) (f : String) (s : Schema) (r : Record)
    (h : successNotice f ∈ (writeParquetFile env f s r).trace) :
    checkedOk env f ∧
    writeParquetFile env f s r =
      ⟨[.writerCall f s r, .osCreate f, .newFileWriter f s, .write f r, successNotice f,
        .writerClose f (env f .writerClose), .fileClose f (env f .fileClose)],
       .returned⟩ := by
  by_cases hc : checkedOk env f
  · exact ⟨hc, writeParquetFile_ok env f s r hc⟩
  · exfalso
    obtain ⟨e, hw | hw | hw⟩ := writeParquetFile_fail env f s r hc <;>
      rw [hw] at h <;> simp [successNotice] at h

theorem notice_after_write_before_close_witness :
    successNotice "types.parquet" ∈
        (writeParquetFile allOk "types.parquet" typesSchema typesRecord).trace ∧
    checkedOk allOk "types.parquet" ∧
    writeParquetFile allOk "types.parquet" typesSchema typesRecord =
      ⟨[.writerCall "types.parquet" typesSchema typesRecord, .osCreate "types.parquet",
        .newFileWriter "types.parquet" typesSchema, .write "types.parquet" typesRecord,
        successNotice "types.parquet", .writerClose "types.parquet" none,
        .fileClose "types.parquet" none], .returned⟩ :=
  ⟨by decide,
    notice_after_write_before_close allOk "types.parquet" typesSchema typesRecord (by decide)⟩

/-! ## C6: the successful run -/

/-- C6: in every run in which no checked writer step fails, whatever the two
deferred close calls return, `main` invokes the writer exactly three times, for
"minimal.parquet", "simple.parquet", "types.parquet" in this order, each with
the schema and the record of its own recipe; for each file the serializer close
and then the file close are executed before the first action of the next
recipe (before the summary, for the last file); the run is the full trace
ending with "Done! Generated:" and the three summary lines, and the exit status
is 0. -/
theorem successful_run (env : Env) (h : noCheckedFailure env) :
    main env = ⟨successTrace env, .returned⟩ ∧
    exitCode (main env) = 0 ∧
    writerCalls (main env).trace =
      [("minimal.parquet", minimalSchema, minimalRecord),
       ("simple.parquet", simpleSchema, simpleRecord),
       ("types.parquet", typesSchema, typesRecord)] ∧
    closedBefore "minimal.parquet" (.stdout "Creating simple.parquet...\n")
      (main env).trace = true ∧
    closedBefore "simple.parquet" (.stdout "Creating types.parquet...\n")
      (main env).trace = true ∧
    closedBefore "types.parquet" (.stdout "Done! Generated:\n")
      (main env).trace = true ∧
    (main env).trace.drop ((main env).trace.length - 4) =
      .stdout "Done! Generated:\n" :: summaryLines.map Event.stdout := by
  rw [main_ok env h]
  exact ⟨rfl, rfl, rfl, rfl, rfl, rfl, rfl⟩

theorem noCheckedFailure_closedByWriter : noCheckedFailure closedByWriter :=
  fun _ => ⟨rfl, rfl, rfl⟩

theorem successful_run_witness :
    noCheckedFailure closedByWriter ∧
    main closedByWriter = ⟨successTrace closedByWriter, .returned⟩ ∧
    exitCode (main closedByWriter) = 0 ∧
    writerCalls (main closedByWriter).trace =
      [("minimal.parquet", minimalSchema, minimalRecord),
       ("simple.parquet", simpleSchema, simpleRecord),
       ("types.parquet", typesSchema, typesRecord)] ∧
    closedBefore "minimal.parquet" (.stdout "Creating simple.parquet...\n")
      (main closedByWriter).trace = true ∧
    closedBefore "simple.parquet" (.stdout "Creating types.parquet...\n")
      (main closedByWriter).trace = true ∧
    closedBefore "types.parquet" (.stdout "Done! Generated:\n")
      (main closedByWriter).trace = true ∧
    (main closedByWriter).trace.drop ((main closedByWriter).trace.length - 4) =
      .stdout "Done! Generated:\n" :: summaryLines.map Event.stdout :=
  ⟨noCheckedFailure_closedByWriter,
    successful_run closedByWriter noCheckedFailure_closedByWriter⟩

end ParquetGenerator
